import Mathlib

/-!
Verification of the WeatherService repository: a shallow embedding of the
coordinate-validation and provider-response-normalization pipeline
(`WeatherRoute.areCoordinatesValid`, `WeatherRoute.getWeatherByCoordinates`,
`OpenWeatherMapper.mapToWeatherServiceData` and its helpers,
`OpenWeatherService.getWeatherByCoordinates`, `apiKeyValidator`),
together with theorems settling the specification's claims.

Modelling conventions:
- Raw provider payloads are JSON values delivered by the HTTP client, so they
  are modelled by the inductive `JVal` (JSON constructors plus `undefined` for the
  result of reading an absent property).  JavaScript numbers are idealized as
  rationals; JSON cannot carry NaN or infinities, so `JVal.num` is finite.
- `parseFloat` can produce infinities from strings such as "Infinity", so the
  result of numeric parsing is `Option JNum`: `none` models NaN, `JNum.fin`,
  `JNum.posInf`, `JNum.negInf` model the possible numeric results.
- A JavaScript property access that throws a TypeError (reading a property of
  `undefined` or `null`, or calling `.map` on a non-array) is modelled by
  `none` in an `Option`-valued computation; `Option.bind` sequences accesses
  exactly as evaluation order does in the source.
- `ToString` coercions of arrays and plain objects inside `parseInt` /
  `parseFloat` are not modelled (such values parse to NaN here); every payload
  field that those functions are applied to in the source carries a number, a
  string, null, or is absent.
-/

/-- A JavaScript value as it occurs in a parsed JSON payload, plus `undefined`
for the value of an absent property. -/
inductive JVal where
  | undefined : JVal
  | null : JVal
  | bool (b : Bool) : JVal
  | num (q : ℚ) : JVal
  | str (s : String) : JVal
  | arr (elems : List JVal) : JVal
  | obj (fields : List (String × JVal)) : JVal

/-- A non-NaN JavaScript number: a finite value (idealized as a rational) or
one of the two infinities. -/
inductive JNum where
  | fin (q : ℚ) : JNum
  | posInf : JNum
  | negInf : JNum
deriving DecidableEq

/-- `a <= q` for a JavaScript number `a` and a finite constant `q`. -/
def JNum.leQ : JNum → ℚ → Bool
  | .fin x, q => decide (x ≤ q)
  | .posInf, _ => false
  | .negInf, _ => true

/-- `a < q` for a JavaScript number `a` and a finite constant `q`. -/
def JNum.ltQ : JNum → ℚ → Bool
  | .fin x, q => decide (x < q)
  | .posInf, _ => false
  | .negInf, _ => true

/-- `a > q` for a JavaScript number `a` and a finite constant `q`. -/
def JNum.gtQ : JNum → ℚ → Bool
  | .fin x, q => decide (q < x)
  | .posInf, _ => true
  | .negInf, _ => false

/-- JavaScript truthiness of a payload value (`undefined`, `null`, `false`,
`0` and `""` are falsy; every array and object is truthy). -/
def jsTruthy : JVal → Bool
  | .undefined => false
  | .null => false
  | .bool b => b
  | .num q => decide (q ≠ 0)
  | .str s => decide (s ≠ "")
  | .arr _ => true
  | .obj _ => true

/-- Property read `v[k]`, as used by the source's `data.current`,
`weatherData.id`, `alert.event`, `alerts.length`.  Reading a property of
`undefined` or `null` throws a TypeError (`none`); reading an absent property
of an object yields `undefined`; primitives expose no own properties except
the `length` of strings; arrays expose `length`. -/
def getField : JVal → String → Option JVal
  | .undefined, _ => none
  | .null, _ => none
  | .obj fs, k => some ((fs.lookup k).getD .undefined)
  | .arr xs, k => some (if k = "length" then .num xs.length else .undefined)
  | .str s, k => some (if k = "length" then .num s.length else .undefined)
  | _, _ => some .undefined

/-- Index read `v[i]`, as used by the source's `data.current.weather[0]`.
Indexing `undefined` or `null` throws (`none`); indexing an array past its
end yields `undefined`; indexing a string yields a one-character string. -/
def getIndex : JVal → Nat → Option JVal
  | .undefined, _ => none
  | .null, _ => none
  | .arr xs, i => some (xs.getD i .undefined)
  | .str s, i =>
      some (if h : i < s.toList.length then .str (String.mk [s.toList.get ⟨i, h⟩]) else .undefined)
  | .obj fs, i => some ((fs.lookup (toString i)).getD .undefined)
  | _, _ => some .undefined

/-- Whitespace skipped by `parseFloat` / `parseInt` before the number. -/
def jsWhitespace (c : Char) : Bool :=
  c = ' ' || c = '\t' || c = '\n' || c = '\r' || c = '\x0b' || c = '\x0c'

/-- Is `c` a decimal digit? -/
def isDecDigit (c : Char) : Bool := '0' ≤ c && c ≤ '9'

/-- Numeric value of a decimal digit character. -/
def digitVal (c : Char) : ℕ := c.toNat - '0'.toNat

/-- Split off the longest prefix of decimal digits. -/
def takeDigits : List Char → List ℕ × List Char
  | [] => ([], [])
  | c :: cs =>
      if isDecDigit c then
        let p := takeDigits cs
        (digitVal c :: p.1, p.2)
      else ([], c :: cs)

/-- The natural number denoted by a list of decimal digits. -/
def digitsToNat (ds : List ℕ) : ℕ := ds.foldl (fun a d => a * 10 + d) 0

/-- Parse the unsigned mantissa of a decimal literal (`DecimalDigits`,
`DecimalDigits . DecimalDigits?`, or `. DecimalDigits`); `none` when the
input starts with no digits and no fraction. -/
def parseMantissa (cs : List Char) : Option (ℚ × List Char) :=
  let ip := takeDigits cs
  match ip.2 with
  | '.' :: r2 =>
      let fp := takeDigits r2
      if ip.1.isEmpty && fp.1.isEmpty then none
      else some ((digitsToNat ip.1 : ℚ) + (digitsToNat fp.1 : ℚ) / (10 : ℚ) ^ fp.1.length, fp.2)
  | _ => if ip.1.isEmpty then none else some ((digitsToNat ip.1 : ℚ), ip.2)

/-- Parse an optional exponent part `e`/`E` `[+-]? DecimalDigits`; when the
characters after the `e` do not form an exponent, nothing is consumed. -/
def parseExponent (cs : List Char) : ℤ :=
  match cs with
  | 'e' :: r => parseSignedDigits r
  | 'E' :: r => parseSignedDigits r
  | _ => 0
where
  /-- Parse `[+-]? DecimalDigits`, yielding `0` when there are no digits. -/
  parseSignedDigits : List Char → ℤ
  | '+' :: r2 => (digitsToNat (takeDigits r2).1 : ℤ)
  | '-' :: r2 => -(digitsToNat (takeDigits r2).1 : ℤ)
  | r2 => (digitsToNat (takeDigits r2).1 : ℤ)

/-- Negate a JavaScript number. -/
def JNum.neg : JNum → JNum
  | .fin q => .fin (-q)
  | .posInf => .negInf
  | .negInf => .posInf

/-- Parse an unsigned `StrDecimalLiteral` prefix: `Infinity` or a decimal
mantissa with optional exponent. -/
def parseUnsignedFloat (cs : List Char) : Option JNum :=
  if cs.take 8 = "Infinity".toList then some .posInf
  else
    match parseMantissa cs with
    | none => none
    | some (m, r) => some (.fin (m * (10 : ℚ) ^ parseExponent r))

/-- JavaScript `parseFloat` on a character list: skip leading whitespace,
optional sign, then the longest numeric-literal prefix; `none` is NaN. -/
def jsParseFloatChars (cs : List Char) : Option JNum :=
  match cs.dropWhile jsWhitespace with
  | '+' :: r => parseUnsignedFloat r
  | '-' :: r => (parseUnsignedFloat r).map JNum.neg
  | r => parseUnsignedFloat r

/-- JavaScript `parseFloat` on a string; `none` is NaN. -/
def jsParseFloatString (s : String) : Option JNum := jsParseFloatChars s.toList

/-- JavaScript `parseInt(·, 10)` on a character list: skip leading
whitespace, optional sign, then the longest decimal-digit prefix; `none` is
NaN. -/
def jsParseIntChars (cs : List Char) : Option ℤ :=
  match cs.dropWhile jsWhitespace with
  | '+' :: r =>
      let ds := (takeDigits r).1
      if ds.isEmpty then none else some (digitsToNat ds : ℤ)
  | '-' :: r =>
      let ds := (takeDigits r).1
      if ds.isEmpty then none else some (-(digitsToNat ds : ℤ))
  | r =>
      let ds := (takeDigits r).1
      if ds.isEmpty then none else some (digitsToNat ds : ℤ)

/-- Truncation of a rational toward zero, the integer `parseInt` recovers
from the decimal rendering of a finite number. -/
def ratTrunc (q : ℚ) : ℤ :=
  if 0 ≤ q.num then ((q.num.toNat / q.den : ℕ) : ℤ) else -(((-q.num).toNat / q.den : ℕ) : ℤ)

/-- JavaScript `parseFloat` applied to a payload value (the argument is
coerced to a string first; numbers pass through, non-numeric primitives
yield NaN). -/
def jsParseFloat : JVal → Option JNum
  | .num q => some (.fin q)
  | .str s => jsParseFloatString s
  | _ => none

/-- JavaScript `parseInt(·, 10)` applied to a payload value (the argument is
coerced to a string first; a finite number renders in decimal and parses
back to its truncation, non-numeric primitives yield NaN). -/
def jsParseInt10 : JVal → Option ℤ
  | .num q => some (ratTrunc q)
  | .str s => jsParseIntChars s.toList
  | _ => none

/-- The application's standardized output shape, `WeatherServiceData` from
`models/WeatherServiceData.ts` (alert entries keep their JSON shape). -/
structure WeatherServiceData where
  current_condition : String
  temperature_description : String
  active_alerts : List JVal

namespace OpenWeatherMapper

/-- `OpenWeatherMapper.TEMP_EXTREMELY_COLD_UPPER`. -/
def TEMP_EXTREMELY_COLD_UPPER : ℚ := -4
/-- `OpenWeatherMapper.TEMP_VERY_COLD_UPPER`. -/
def TEMP_VERY_COLD_UPPER : ℚ := 14
/-- `OpenWeatherMapper.TEMP_COLD_UPPER`. -/
def TEMP_COLD_UPPER : ℚ := 32
/-- `OpenWeatherMapper.TEMP_CHILLY_UPPER`. -/
def TEMP_CHILLY_UPPER : ℚ := 50
/-- `OpenWeatherMapper.TEMP_COOL_UPPER`. -/
def TEMP_COOL_UPPER : ℚ := 59
/-- `OpenWeatherMapper.TEMP_MILD_UPPER`. -/
def TEMP_MILD_UPPER : ℚ := 68
/-- `OpenWeatherMapper.TEMP_WARM_UPPER`. -/
def TEMP_WARM_UPPER : ℚ := 77
/-- `OpenWeatherMapper.TEMP_HOT_UPPER`. -/
def TEMP_HOT_UPPER : ℚ := 86
/-- `OpenWeatherMapper.TEMP_VERY_HOT_UPPER`. -/
def TEMP_VERY_HOT_UPPER : ℚ := 95

/-- `OpenWeatherMapper.UNKNOWN_VALUE`. -/
def UNKNOWN_VALUE : String := "Unknown"

/-- The `conditionMap` object literal of `mapCurrentCondition`: the fixed
OpenWeather condition-code lookup table. -/
def conditionMap : List (ℤ × String) :=
  [(200, "Thunderstorm with Light Rain"),
   (201, "Thunderstorm with Rain"),
   (202, "Thunderstorm with Heavy Rain"),
   (210, "Light Thunderstorm"),
   (211, "Thunderstorm"),
   (212, "Heavy Thunderstorm"),
   (221, "Ragged Thunderstorm"),
   (230, "Thunderstorm with Light Drizzle"),
   (231, "Thunderstorm with Drizzle"),
   (232, "Thunderstorm with Heavy Drizzle"),
   (300, "Light Intensity Drizzle"),
   (301, "Drizzle"),
   (302, "Heavy Intensity Drizzle"),
   (310, "Light Intensity Drizzle Rain"),
   (311, "Drizzle Rain"),
   (312, "Heavy Intensity Drizzle Rain"),
   (313, "Shower Rain and Drizzle"),
   (314, "Heavy Shower Rain and Drizzle"),
   (321, "Shower Drizzle"),
   (500, "Light Rain"),
   (501, "Moderate Rain"),
   (502, "Heavy Intensity Rain"),
   (503, "Very Heavy Rain"),
   (504, "Extreme Rain"),
   (511, "Freezing Rain"),
   (520, "Light Intensity Shower Rain"),
   (521, "Shower Rain"),
   (522, "Heavy Intensity Shower Rain"),
   (531, "Ragged Shower Rain"),
   (600, "Light Snow"),
   (601, "Snow"),
   (602, "Heavy Snow"),
   (611, "Sleet"),
   (612, "Light Shower Sleet"),
   (613, "Shower Sleet"),
   (615, "Light Rain and Snow"),
   (616, "Rain and Snow"),
   (620, "Light Shower Snow"),
   (621, "Shower Snow"),
   (622, "Heavy Shower Snow"),
   (701, "Mist"),
   (711, "Smoke"),
   (721, "Haze"),
   (731, "Sand, Dust Whirls"),
   (741, "Fog"),
   (751, "Sand"),
   (761, "Dust"),
   (762, "Volcanic Ash"),
   (771, "Squalls"),
   (781, "Tornado"),
   (800, "Clear Sky"),
   (801, "Few Clouds"),
   (802, "Scattered Clouds"),
   (803, "Broken Clouds"),
   (804, "Overcast Clouds")]

/-- `OpenWeatherMapper.mapCurrentCondition`:
reads `data.current.weather[0]`, parses its `id` with `parseInt(·, 10)`,
and looks the code up in `conditionMap`.  Every value in `conditionMap` is a
non-empty string, so the source's `conditionMap[conditionCode] ||
UNKNOWN_VALUE` is the lookup with default `UNKNOWN_VALUE`.  `none` models a
thrown TypeError. -/
def mapCurrentCondition (data : JVal) : Option String := do
  let current ← getField data "current"
  let weather ← getField current "weather"
  let weatherData ← getIndex weather 0
  let idv ← getField weatherData "id"
  match jsParseInt10 idv with
  | none => pure UNKNOWN_VALUE
  | some conditionCode => pure ((conditionMap.lookup conditionCode).getD UNKNOWN_VALUE)

/-- The if-else-if chain of `OpenWeatherMapper.mapTempDescription` on an
already-parsed, non-NaN temperature. -/
def tempDescription (temp : JNum) : String :=
  if temp.leQ TEMP_EXTREMELY_COLD_UPPER then "Extremely Cold"
  else if temp.leQ TEMP_VERY_COLD_UPPER then "Very Cold"
  else if temp.leQ TEMP_COLD_UPPER then "Cold"
  else if temp.leQ TEMP_CHILLY_UPPER then "Chilly"
  else if temp.leQ TEMP_COOL_UPPER then "Cool"
  else if temp.leQ TEMP_MILD_UPPER then "Mild"
  else if temp.leQ TEMP_WARM_UPPER then "Warm"
  else if temp.leQ TEMP_HOT_UPPER then "Hot"
  else if temp.leQ TEMP_VERY_HOT_UPPER then "Very Hot"
  else if temp.gtQ TEMP_VERY_HOT_UPPER then "Extremely Hot"
  else UNKNOWN_VALUE

/-- `OpenWeatherMapper.mapTempDescription`: parses
`data.current.feels_like` with `parseFloat` and buckets the result;
NaN yields `UNKNOWN_VALUE`.  `none` models a thrown TypeError. -/
def mapTempDescription (data : JVal) : Option String := do
  let current ← getField data "current"
  let feelsLike ← getField current "feels_like"
  match jsParseFloat feelsLike with
  | none => pure UNKNOWN_VALUE
  | some temp => pure (tempDescription temp)

/-- JavaScript `v > 0`, as used on `alerts.length`; only an actual number
compares greater than zero here (`undefined > 0` is false; the source never
reaches this comparison with a string or object `length`). -/
def jsGtZero : JVal → Bool
  | .num x => decide (0 < x)
  | _ => false

/-- The element-wise body of the source's
`alerts.map(alert => {return {event: alert.event}})`: `Array.prototype.map`
runs the callback left to right, and a TypeError thrown while reading
`alert.event` of an `undefined`/`null` element propagates (`none`). -/
def mapEvents : List JVal → Option (List JVal)
  | [] => some []
  | alert :: rest => do
      let e ← getField alert "event"
      let es ← mapEvents rest
      pure (JVal.obj [("event", e)] :: es)

/-- `OpenWeatherMapper.mapAlerts`: when `data.alerts` is truthy and its
`length` is greater than zero, maps each element to an object carrying only
its `event` field; otherwise returns the empty array.  Calling `.map` on a
truthy non-array value throws (`none`). -/
def mapAlerts (data : JVal) : Option (List JVal) := do
  let alerts ← getField data "alerts"
  if jsTruthy alerts then do
    let len ← getField alerts "length"
    if jsGtZero len then
      match alerts with
      | .arr xs => mapEvents xs
      | _ => none
    else pure []
  else pure []

/-- `OpenWeatherMapper.mapToWeatherServiceData`: builds the
`WeatherServiceData` object; the three field initializers run in source
order, and a TypeError thrown by any of them propagates (`none`). -/
def mapToWeatherServiceData (data : JVal) : Option WeatherServiceData := do
  let current_condition ← mapCurrentCondition data
  let temperature_description ← mapTempDescription data
  let active_alerts ← mapAlerts data
  pure ⟨current_condition, temperature_description, active_alerts⟩

end OpenWeatherMapper

namespace OpenWeatherService

/-- `OpenWeatherService.getWeatherByCoordinates`, as a function of the
outcome of the outbound `httpClient.get` call: a rejected call, or a
TypeError thrown by the mapper, is logged and rethrown (`Except.error`
carrying the cause); otherwise the mapped data is returned.  The coordinate
arguments only shape the request URL, which is not modelled. -/
def getWeatherByCoordinates (apiResponse : Except String JVal) :
    Except String WeatherServiceData :=
  match apiResponse with
  | .error cause => .error cause
  | .ok data =>
      match OpenWeatherMapper.mapToWeatherServiceData data with
      | some w => .ok w
      | none => .error "TypeError"

end OpenWeatherService

namespace WeatherRoute

/-- `WeatherRoute.ERRORS.MISSING_COORDINATES`. -/
def MISSING_COORDINATES : String := "Latitude and Longitude are required"
/-- `WeatherRoute.ERRORS.INVALID_LATITUDE`. -/
def INVALID_LATITUDE : String := "Latitude must be between -90 and 90"
/-- `WeatherRoute.ERRORS.INVALID_LONGITUDE`. -/
def INVALID_LONGITUDE : String := "Longitude must be between -180 and 180"
/-- `WeatherRoute.ERRORS.INVALID_COORDINATES`. -/
def INVALID_COORDINATES : String := "Invalid coordinates provided"
/-- `WeatherRoute.ERRORS.INVALID_COORDINATES_TYPE`. -/
def INVALID_COORDINATES_TYPE : String := "Coordinates must be numbers"
/-- `WeatherRoute.ERRORS.FETCH_FAILED`. -/
def FETCH_FAILED : String := "Failed to fetch weather data"

/-- The return shape of `WeatherRoute.areCoordinatesValid`:
`{areValid: boolean, latitude?: number, longitude?: number,
errorMessage?: string}` (absent optional fields are `none`). -/
structure CoordValidationResult where
  areValid : Bool
  latitude : Option JNum
  longitude : Option JNum
  errorMessage : Option String
deriving DecidableEq

/-- `WeatherRoute.areCoordinatesValid`: `parseFloat` both inputs, reject
with `INVALID_COORDINATES_TYPE` when either is NaN, then range-check
latitude before longitude. -/
def areCoordinatesValid (lat lon : String) : CoordValidationResult :=
  let latitude := jsParseFloatString lat
  let longitude := jsParseFloatString lon
  match latitude, longitude with
  | some la, some lo =>
      if la.ltQ (-90) || la.gtQ 90 then
        ⟨false, none, none, some INVALID_LATITUDE⟩
      else if lo.ltQ (-180) || lo.gtQ 180 then
        ⟨false, none, none, some INVALID_LONGITUDE⟩
      else ⟨true, some la, some lo, none⟩
  | _, _ => ⟨false, none, none, some INVALID_COORDINATES_TYPE⟩

/-- The JSON body of an HTTP reply from the `/coordinates` handler: either
the mapped weather data or `{error: ...}` (whose `error` field is absent
when the handler serializes an `undefined` message). -/
inductive ReplyBody where
  | weather (w : WeatherServiceData) : ReplyBody
  | errObj (msg : Option String) : ReplyBody

/-- An HTTP reply: status code and JSON body. -/
structure HttpReply where
  status : ℕ
  body : ReplyBody

/-- One call on the injected logger, in the order the handler makes them:
the initial `logger.http` line, the `logger.error` line for a validation
failure, or the `logger.error` line for a fetch failure (message, thrown
cause, and the two coordinates). -/
inductive LogEntry where
  | httpLog (lat lon : Option String) : LogEntry
  | validationErrorLog (msg : String) : LogEntry
  | fetchErrorLog (msg : String) (cause : String) (latitude longitude : Option JNum) : LogEntry

/-- Truthiness of an optional query-parameter string (`!lat` in the source:
an absent parameter and the empty string are both falsy). -/
def jsTruthyOptStr : Option String → Bool
  | none => false
  | some s => decide (s ≠ "")

/-- `WeatherRoute.getWeatherByCoordinates`, the `/coordinates` handler, as a
function of the two query parameters and of the weather service's outcome
(`fetch la lo` is the settled promise of
`weatherService.getWeatherByCoordinates(la, lo)`; `Except.error` carries the
thrown cause).  Returns the HTTP reply together with the logger calls
made. -/
def getWeatherByCoordinates (lat lon : Option String)
    (fetch : JNum → JNum → Except String WeatherServiceData) :
    HttpReply × List LogEntry :=
  let logs0 : List LogEntry := [.httpLog lat lon]
  if !jsTruthyOptStr lat || !jsTruthyOptStr lon then
    (⟨400, .errObj (some MISSING_COORDINATES)⟩, logs0)
  else
    let r := areCoordinatesValid (lat.getD "") (lon.getD "")
    if !r.areValid then
      (⟨400, .errObj r.errorMessage⟩,
       logs0 ++ [.validationErrorLog (r.errorMessage.getD "Unknown validation error")])
    else
      match r.latitude, r.longitude with
      | some la, some lo =>
          match fetch la lo with
          | .ok weatherData => (⟨200, .weather weatherData⟩, logs0)
          | .error cause =>
              (⟨500, .errObj (some FETCH_FAILED)⟩,
               logs0 ++ [.fetchErrorLog FETCH_FAILED cause r.latitude r.longitude])
      | _, _ => (⟨400, .errObj (some INVALID_COORDINATES)⟩, logs0)

end WeatherRoute

/-- The outcome of the `apiKeyValidator` middleware: pass the request on to
the next handler, or answer it with a status code and error body. -/
inductive GateOutcome where
  | proceed : GateOutcome
  | reply (status : ℕ) (errorMessage : String) : GateOutcome
deriving DecidableEq

/-- JavaScript `a || b` on two optional strings (the source's
`req.headers['x-api-key'] || req.query.apikey`): the left value when it is
truthy, otherwise the right value. -/
def jsOrStr (a b : Option String) : Option String :=
  match a with
  | some s => if s ≠ "" then some s else b
  | none => b

/-- `apiKeyValidator` from `middleware/apiKeyValidator.ts`, as a function of
`process.env.NODE_ENV`, the `x-api-key` header, the `apikey` query
parameter, and `process.env.WEATHER_SERVICE_API_KEY`: skip validation in
development mode; 401 when no truthy key is presented; 403 when the
presented key differs from the configured secret; otherwise proceed. -/
def apiKeyValidator (nodeEnv : Option String) (headerKey queryKey : Option String)
    (secret : Option String) : GateOutcome :=
  if nodeEnv = some "development" then .proceed
  else
    let apiKey := jsOrStr headerKey queryKey
    if apiKey.getD "" = "" then .reply 401 "Unauthorized"
    else if apiKey ≠ secret then .reply 403 "Forbidden"
    else .proceed

/-- All elements of an alerts array are JSON objects. -/
def alertsElemsObjects : List JVal → Bool
  | [] => true
  | .obj _ :: rest => alertsElemsObjects rest
  | _ => false

/-- The `event` field an alerts-array element contributes (`undefined` when
the element has no `event` field). -/
def alertEvent : JVal → JVal
  | .obj gs => (gs.lookup "event").getD .undefined
  | _ => .undefined

/-- The payload shapes of the `alerts` field under which `mapAlerts` cannot
throw: absent (`undefined`) or an array of objects. -/
def alertsWellFormed : JVal → Bool
  | .undefined => true
  | .arr xs => alertsElemsObjects xs
  | _ => false

/-- A payload whose `current.weather[0].id` is the given value (the shape
the condition-code tests exercise). -/
def condPayload (idv : JVal) : JVal :=
  .obj [("current", .obj [("weather", .arr [.obj [("id", idv)]])])]


theorem optionBind_some {α β : Type} (a : α) (f : α → Option β) :
    (some a >>= f) = f a := rfl

theorem mapEvents_of_objects (xs : List JVal) (h : alertsElemsObjects xs = true) :
    OpenWeatherMapper.mapEvents xs =
      some (xs.map (fun alert => JVal.obj [("event", alertEvent alert)])) := by
  induction xs with
  | nil => rfl
  | cons x rest ih =>
      cases x <;> simp_all [alertsElemsObjects, alertEvent, OpenWeatherMapper.mapEvents,
        getField, optionBind_some]

open OpenWeatherMapper in
theorem mapCurrentCondition_eval (fs cs w0 : List (String × JVal)) (ws : List JVal)
    (hcur : fs.lookup "current" = some (.obj cs))
    (hw : cs.lookup "weather" = some (.arr (JVal.obj w0 :: ws))) :
    mapCurrentCondition (.obj fs) =
      some (match jsParseInt10 ((w0.lookup "id").getD .undefined) with
            | none => UNKNOWN_VALUE
            | some conditionCode => (conditionMap.lookup conditionCode).getD UNKNOWN_VALUE) := by
  simp only [mapCurrentCondition, getField, getIndex, hcur, hw, Option.getD_some,
    optionBind_some, List.getD_cons_zero]
  cases jsParseInt10 ((w0.lookup "id").getD .undefined) <;> rfl

open OpenWeatherMapper in
theorem mapTempDescription_eval (fs cs : List (String × JVal))
    (hcur : fs.lookup "current" = some (.obj cs)) :
    mapTempDescription (.obj fs) =
      some (match jsParseFloat ((cs.lookup "feels_like").getD .undefined) with
            | none => UNKNOWN_VALUE
            | some temp => tempDescription temp) := by
  simp only [mapTempDescription, getField, hcur, Option.getD_some, optionBind_some]
  cases jsParseFloat ((cs.lookup "feels_like").getD .undefined) <;> rfl

open OpenWeatherMapper in
theorem mapAlerts_eval_notTruthy (fs : List (String × JVal))
    (h : jsTruthy ((fs.lookup "alerts").getD .undefined) = false) :
    mapAlerts (.obj fs) = some [] := by
  simp [mapAlerts, getField, optionBind_some, h]

open OpenWeatherMapper in
theorem mapAlerts_eval_arr (fs : List (String × JVal)) (xs : List JVal)
    (h : fs.lookup "alerts" = some (.arr xs)) (hx : alertsElemsObjects xs = true) :
    mapAlerts (.obj fs) =
      some (xs.map (fun alert => JVal.obj [("event", alertEvent alert)])) := by
  simp only [mapAlerts, getField, h, Option.getD_some, optionBind_some, jsTruthy]
  cases xs with
  | nil => rfl
  | cons x rest =>
      norm_num [jsGtZero]
      rw [if_pos (by positivity)]
      exact mapEvents_of_objects _ hx

open OpenWeatherMapper in
theorem mapToWeatherServiceData_eval (data : JVal) (c t : String) (a : List JVal)
    (h1 : mapCurrentCondition data = some c) (h2 : mapTempDescription data = some t)
    (h3 : mapAlerts data = some a) :
    mapToWeatherServiceData data = some ⟨c, t, a⟩ := by
  simp [mapToWeatherServiceData, h1, h2, h3, optionBind_some]

theorem ratTrunc_intCast (c : ℤ) : ratTrunc (c : ℚ) = c := by
  unfold ratTrunc
  rw [Rat.num_intCast, Rat.den_intCast]
  split_ifs with h <;> simp [Nat.div_one] <;> omega

set_option maxHeartbeats 2000000 in
open OpenWeatherMapper in
theorem tempDescription_closed_form (q : ℚ) :
    tempDescription (.fin q) =
      if q ≤ -4 then "Extremely Cold"
      else if q ≤ 14 then "Very Cold"
      else if q ≤ 32 then "Cold"
      else if q ≤ 50 then "Chilly"
      else if q ≤ 59 then "Cool"
      else if q ≤ 68 then "Mild"
      else if q ≤ 77 then "Warm"
      else if q ≤ 86 then "Hot"
      else if q ≤ 95 then "Very Hot"
      else "Extremely Hot" := by
  simp only [tempDescription, JNum.leQ, JNum.gtQ, TEMP_EXTREMELY_COLD_UPPER,
    TEMP_VERY_COLD_UPPER, TEMP_COLD_UPPER, TEMP_CHILLY_UPPER, TEMP_COOL_UPPER,
    TEMP_MILD_UPPER, TEMP_WARM_UPPER, TEMP_HOT_UPPER, TEMP_VERY_HOT_UPPER,
    decide_eq_true_eq]
  split_ifs <;> first | rfl | linarith

/-- C1 (counterexample to the claim as stated): on a payload whose `current`
object is absent, and on one whose `current.weather` is absent, the mapping
throws a TypeError instead of returning a `WeatherServiceData`. -/
theorem normalize_throws_on_missing_current :
    OpenWeatherMapper.mapToWeatherServiceData (JVal.obj []) = none ∧
    OpenWeatherMapper.mapToWeatherServiceData (JVal.obj [("current", JVal.obj [])]) = none :=
  ⟨rfl, rfl⟩

/-- C1 (amended): whenever the payload is an object whose `current` field is
an object carrying a `weather` array with an object as first element, and
whose `alerts` field (if any) is an array of objects, `normalize` returns a
`WeatherServiceData`; a missing or malformed condition code and feels-like
temperature degrade to "Unknown", and an absent or empty alerts list
degrades to the empty sequence. -/
theorem normalize_degrades_given_current_shape
    (fs cs w0 : List (String × JVal)) (ws : List JVal)
    (hcur : fs.lookup "current" = some (.obj cs))
    (hw : cs.lookup "weather" = some (.arr (JVal.obj w0 :: ws)))
    (halerts : alertsWellFormed ((fs.lookup "alerts").getD .undefined) = true) :
    ∃ w : WeatherServiceData,
      OpenWeatherMapper.mapToWeatherServiceData (.obj fs) = some w ∧
      (jsParseInt10 ((w0.lookup "id").getD .undefined) = none → w.current_condition = "Unknown") ∧
      (jsParseFloat ((cs.lookup "feels_like").getD .undefined) = none →
        w.temperature_description = "Unknown") ∧
      (fs.lookup "alerts" = none ∨ fs.lookup "alerts" = some (.arr []) →
        w.active_alerts = []) := by
  have hc := mapCurrentCondition_eval fs cs w0 ws hcur hw
  have ht := mapTempDescription_eval fs cs hcur
  have ha : ∃ al, OpenWeatherMapper.mapAlerts (.obj fs) = some al ∧
      (fs.lookup "alerts" = none ∨ fs.lookup "alerts" = some (.arr []) → al = []) := by
    cases hl : fs.lookup "alerts" with
    | none =>
        exact ⟨[], mapAlerts_eval_notTruthy fs (by simp [hl, jsTruthy]), fun _ => rfl⟩
    | some v =>
        rw [hl] at halerts
        cases v with
        | undefined =>
            refine ⟨[], mapAlerts_eval_notTruthy fs (by simp [hl, jsTruthy]), fun h => rfl⟩
        | arr xs =>
            refine ⟨_, mapAlerts_eval_arr fs xs hl (by simpa using halerts), fun h => ?_⟩
            rcases h with h | h
            · exact absurd h (by simp)
            · have hx : xs = [] := by simpa using h
              simp [hx]
        | null => simp [alertsWellFormed] at halerts
        | bool b => simp [alertsWellFormed] at halerts
        | num q => simp [alertsWellFormed] at halerts
        | str s => simp [alertsWellFormed] at halerts
        | obj o => simp [alertsWellFormed] at halerts
  obtain ⟨al, hal, halimp⟩ := ha
  refine ⟨⟨_, _, al⟩, mapToWeatherServiceData_eval _ _ _ _ hc ht hal, ?_, ?_, halimp⟩
  · intro hnone; simp [hnone]; rfl
  · intro hnone; simp [hnone]; rfl

/-- C1 witness: a payload with the required `current.weather[0]` shape but no
condition code, no feels-like temperature and no alerts maps to the fallback
values. -/
theorem normalize_degrades_witness :
    ∃ w : WeatherServiceData,
      OpenWeatherMapper.mapToWeatherServiceData
          (.obj [("current", .obj [("weather", .arr [.obj []])])]) = some w ∧
      w.current_condition = "Unknown" ∧ w.temperature_description = "Unknown" ∧
      w.active_alerts = [] := by
  obtain ⟨w, h1, h2, h3, h4⟩ :=
    normalize_degrades_given_current_shape
      [("current", .obj [("weather", .arr [.obj []])])]
      [("weather", .arr [.obj []])] [] [] rfl rfl (by decide)
  exact ⟨w, h1, h2 (by decide), h3 (by decide), h4 (Or.inl rfl)⟩

open OpenWeatherMapper in
theorem tempDescription_partition (q : ℚ) :
    (tempDescription (.fin q) = "Extremely Cold" ↔ q ≤ -4) ∧
    (tempDescription (.fin q) = "Very Cold" ↔ -4 < q ∧ q ≤ 14) ∧
    (tempDescription (.fin q) = "Cold" ↔ 14 < q ∧ q ≤ 32) ∧
    (tempDescription (.fin q) = "Chilly" ↔ 32 < q ∧ q ≤ 50) ∧
    (tempDescription (.fin q) = "Cool" ↔ 50 < q ∧ q ≤ 59) ∧
    (tempDescription (.fin q) = "Mild" ↔ 59 < q ∧ q ≤ 68) ∧
    (tempDescription (.fin q) = "Warm" ↔ 68 < q ∧ q ≤ 77) ∧
    (tempDescription (.fin q) = "Hot" ↔ 77 < q ∧ q ≤ 86) ∧
    (tempDescription (.fin q) = "Very Hot" ↔ 86 < q ∧ q ≤ 95) ∧
    (tempDescription (.fin q) = "Extremely Hot" ↔ 95 < q) := by
  rw [tempDescription_closed_form]
  split_ifs with h1 h2 h3 h4 h5 h6 h7 h8 h9
  all_goals refine ⟨?_, ?_, ?_, ?_, ?_, ?_, ?_, ?_, ?_, ?_⟩
  all_goals first
    | exact iff_of_true rfl (by constructor <;> linarith)
    | exact iff_of_true rfl (by linarith)
    | exact iff_of_false (by decide) (fun hc => by rcases hc with ⟨a, b⟩; linarith)
    | exact iff_of_false (by decide) (fun hc => by linarith)

/-- C2: temperature bucketing is a total partition of the numeric line into
the 10 named buckets with inclusive upper bounds (each boundary value lies
in the colder bucket), and a non-numeric feels-like value buckets to
"Unknown". -/
theorem tempBucketing_total_partition :
    (∀ q : ℚ,
      (OpenWeatherMapper.tempDescription (.fin q) = "Extremely Cold" ↔ q ≤ -4) ∧
      (OpenWeatherMapper.tempDescription (.fin q) = "Very Cold" ↔ -4 < q ∧ q ≤ 14) ∧
      (OpenWeatherMapper.tempDescription (.fin q) = "Cold" ↔ 14 < q ∧ q ≤ 32) ∧
      (OpenWeatherMapper.tempDescription (.fin q) = "Chilly" ↔ 32 < q ∧ q ≤ 50) ∧
      (OpenWeatherMapper.tempDescription (.fin q) = "Cool" ↔ 50 < q ∧ q ≤ 59) ∧
      (OpenWeatherMapper.tempDescription (.fin q) = "Mild" ↔ 59 < q ∧ q ≤ 68) ∧
      (OpenWeatherMapper.tempDescription (.fin q) = "Warm" ↔ 68 < q ∧ q ≤ 77) ∧
      (OpenWeatherMapper.tempDescription (.fin q) = "Hot" ↔ 77 < q ∧ q ≤ 86) ∧
      (OpenWeatherMapper.tempDescription (.fin q) = "Very Hot" ↔ 86 < q ∧ q ≤ 95) ∧
      (OpenWeatherMapper.tempDescription (.fin q) = "Extremely Hot" ↔ 95 < q)) ∧
    (∀ v : JVal, jsParseFloat v = none →
      OpenWeatherMapper.mapTempDescription
          (.obj [("current", .obj [("feels_like", v)])]) = some "Unknown") := by
  refine ⟨tempDescription_partition, fun v hv => ?_⟩
  rw [mapTempDescription_eval [("current", .obj [("feels_like", v)])] [("feels_like", v)] rfl]
  have hlv : ((List.lookup "feels_like" [("feels_like", v)]).getD JVal.undefined) = v := rfl
  rw [hlv, hv]
  rfl

/-- C2 witness: 75 °F buckets to "Warm", and a feels-like value of
"invalid" yields "Unknown". -/
theorem tempBucketing_witness :
    OpenWeatherMapper.tempDescription (.fin 75) = "Warm" ∧
    OpenWeatherMapper.mapTempDescription
        (.obj [("current", .obj [("feels_like", .str "invalid")])]) = some "Unknown" :=
  ⟨((tempBucketing_total_partition.1 75).2.2.2.2.2.2.1).mpr (by norm_num),
   tempBucketing_total_partition.2 (.str "invalid") (by decide)⟩

/-- C4: condition mapping looks the parsed integer code up in the fixed
`conditionMap` table (800, 500, 600 are spot-checked), yields "Unknown" for
an absent or non-numeric code and for any code not in the table, and
depends on the payload value only through the parsed integer code. -/
theorem conditionMapping_lookup_table :
    (OpenWeatherMapper.mapCurrentCondition (condPayload (.num 800)) = some "Clear Sky") ∧
    (OpenWeatherMapper.mapCurrentCondition (condPayload (.num 500)) = some "Light Rain") ∧
    (OpenWeatherMapper.mapCurrentCondition (condPayload (.num 600)) = some "Light Snow") ∧
    (∀ v : JVal, jsParseInt10 v = none →
      OpenWeatherMapper.mapCurrentCondition (condPayload v) = some "Unknown") ∧
    (∀ c : ℤ, OpenWeatherMapper.conditionMap.lookup c = none →
      OpenWeatherMapper.mapCurrentCondition (condPayload (.num (c : ℚ))) = some "Unknown") ∧
    (∀ v u : JVal, jsParseInt10 v = jsParseInt10 u →
      OpenWeatherMapper.mapCurrentCondition (condPayload v) =
        OpenWeatherMapper.mapCurrentCondition (condPayload u)) := by
  refine ⟨rfl, rfl, rfl, fun v hv => ?_, fun c hc => ?_, fun v u h => ?_⟩
  · show OpenWeatherMapper.mapCurrentCondition
        (.obj [("current", .obj [("weather", .arr [.obj [("id", v)]])])]) = some "Unknown"
    rw [mapCurrentCondition_eval
      [("current", .obj [("weather", .arr [.obj [("id", v)]])])]
      [("weather", .arr [.obj [("id", v)]])] [("id", v)] [] rfl rfl]
    have hid : ((List.lookup "id" [("id", v)]).getD JVal.undefined) = v := rfl
    rw [hid, hv]
    rfl
  · show OpenWeatherMapper.mapCurrentCondition
        (.obj [("current", .obj [("weather", .arr [.obj [("id", .num (c : ℚ))]])])]) = some "Unknown"
    rw [mapCurrentCondition_eval
      [("current", .obj [("weather", .arr [.obj [("id", .num (c : ℚ))]])])]
      [("weather", .arr [.obj [("id", .num (c : ℚ))]])] [("id", .num (c : ℚ))] [] rfl rfl]
    have hid : ((List.lookup "id" [("id", JVal.num (c : ℚ))]).getD JVal.undefined) =
        JVal.num (c : ℚ) := rfl
    rw [hid]
    simp only [jsParseInt10, ratTrunc_intCast, hc]
    rfl
  · show OpenWeatherMapper.mapCurrentCondition
        (.obj [("current", .obj [("weather", .arr [.obj [("id", v)]])])]) =
      OpenWeatherMapper.mapCurrentCondition
        (.obj [("current", .obj [("weather", .arr [.obj [("id", u)]])])])
    rw [mapCurrentCondition_eval
        [("current", .obj [("weather", .arr [.obj [("id", v)]])])]
        [("weather", .arr [.obj [("id", v)]])] [("id", v)] [] rfl rfl,
      mapCurrentCondition_eval
        [("current", .obj [("weather", .arr [.obj [("id", u)]])])]
        [("weather", .arr [.obj [("id", u)]])] [("id", u)] [] rfl rfl]
    have hv : ((List.lookup "id" [("id", v)]).getD JVal.undefined) = v := rfl
    have hu : ((List.lookup "id" [("id", u)]).getD JVal.undefined) = u := rfl
    rw [hv, hu, h]

/-- C4 witness: an absent code, a non-numeric code, a code missing from the
table, and two payloads parsing to the same code. -/
theorem conditionMapping_witness :
    OpenWeatherMapper.mapCurrentCondition (condPayload .undefined) = some "Unknown" ∧
    OpenWeatherMapper.mapCurrentCondition (condPayload (.str "invalid")) = some "Unknown" ∧
    OpenWeatherMapper.mapCurrentCondition (condPayload (.num 999)) = some "Unknown" ∧
    OpenWeatherMapper.mapCurrentCondition (condPayload (.str "800")) =
      OpenWeatherMapper.mapCurrentCondition (condPayload (.num 800)) :=
  ⟨conditionMapping_lookup_table.2.2.2.1 .undefined (by decide),
   conditionMapping_lookup_table.2.2.2.1 (.str "invalid") (by decide),
   conditionMapping_lookup_table.2.2.2.2.1 999 (by decide),
   conditionMapping_lookup_table.2.2.2.2.2 (.str "800") (.num 800) (by decide)⟩

/-- C5: alerts mapping carries through exactly one `{event}` object per
element of an array alerts field, in order; an absent or empty alerts list
yields the empty sequence (the result is always a sequence, never
null/undefined). -/
theorem alertsMapping_event_projection :
    (∀ fs : List (String × JVal), fs.lookup "alerts" = none →
      OpenWeatherMapper.mapAlerts (.obj fs) = some []) ∧
    (∀ fs : List (String × JVal), fs.lookup "alerts" = some (.arr []) →
      OpenWeatherMapper.mapAlerts (.obj fs) = some []) ∧
    (∀ (fs : List (String × JVal)) (xs : List JVal),
      fs.lookup "alerts" = some (.arr xs) → alertsElemsObjects xs = true →
      OpenWeatherMapper.mapAlerts (.obj fs) =
        some (xs.map (fun alert => JVal.obj [("event", alertEvent alert)]))) := by
  refine ⟨fun fs h => mapAlerts_eval_notTruthy fs (by simp [h, jsTruthy]),
    fun fs h => ?_, fun fs xs h hx => mapAlerts_eval_arr fs xs h hx⟩
  simpa using mapAlerts_eval_arr fs [] h rfl

/-- C5 witness: a two-element alerts list maps to the two `{event}` objects
in order; a payload without alerts maps to the empty sequence. -/
theorem alertsMapping_witness :
    OpenWeatherMapper.mapAlerts
        (.obj [("alerts", .arr [.obj [("event", .str "Heat Advisory")],
                                .obj [("event", .str "Flood Warning")]])]) =
      some [.obj [("event", .str "Heat Advisory")],
            .obj [("event", .str "Flood Warning")]] ∧
    OpenWeatherMapper.mapAlerts (.obj []) = some [] := by
  refine ⟨?_, alertsMapping_event_projection.1 [] rfl⟩
  exact alertsMapping_event_projection.2.2
    [("alerts", .arr [.obj [("event", .str "Heat Advisory")],
                      .obj [("event", .str "Flood Warning")]])]
    [.obj [("event", .str "Heat Advisory")], .obj [("event", .str "Flood Warning")]]
    rfl (by decide)

theorem areCoordinatesValid_nan_left (lat lon : String)
    (h : jsParseFloatString lat = none) :
    WeatherRoute.areCoordinatesValid lat lon =
      ⟨false, none, none, some WeatherRoute.INVALID_COORDINATES_TYPE⟩ := by
  simp only [WeatherRoute.areCoordinatesValid, h]
  all_goals cases jsParseFloatString lon <;> rfl

theorem areCoordinatesValid_nan_right (lat lon : String)
    (h : jsParseFloatString lon = none) :
    WeatherRoute.areCoordinatesValid lat lon =
      ⟨false, none, none, some WeatherRoute.INVALID_COORDINATES_TYPE⟩ := by
  simp only [WeatherRoute.areCoordinatesValid, h]
  all_goals cases jsParseFloatString lat <;> rfl

theorem areCoordinatesValid_some_some (lat lon : String) (la lo : JNum)
    (h1 : jsParseFloatString lat = some la) (h2 : jsParseFloatString lon = some lo) :
    WeatherRoute.areCoordinatesValid lat lon =
      (if (la.ltQ (-90) || la.gtQ 90) = true then
        ⟨false, none, none, some WeatherRoute.INVALID_LATITUDE⟩
       else if (lo.ltQ (-180) || lo.gtQ 180) = true then
        ⟨false, none, none, some WeatherRoute.INVALID_LONGITUDE⟩
       else ⟨true, some la, some lo, none⟩) := by
  simp only [WeatherRoute.areCoordinatesValid, h1, h2]

theorem areCoordinatesValid_cases (lat lon : String) :
    (∃ msg, WeatherRoute.areCoordinatesValid lat lon = ⟨false, none, none, some msg⟩ ∧
       (msg = WeatherRoute.INVALID_COORDINATES_TYPE ∨ msg = WeatherRoute.INVALID_LATITUDE ∨
        msg = WeatherRoute.INVALID_LONGITUDE)) ∨
    (∃ la lo, WeatherRoute.areCoordinatesValid lat lon = ⟨true, some la, some lo, none⟩) := by
  cases h1 : jsParseFloatString lat with
  | none =>
      exact Or.inl ⟨_, areCoordinatesValid_nan_left lat lon h1, Or.inl rfl⟩
  | some la =>
      cases h2 : jsParseFloatString lon with
      | none =>
          exact Or.inl ⟨_, areCoordinatesValid_nan_right lat lon h2, Or.inl rfl⟩
      | some lo =>
          rw [areCoordinatesValid_some_some lat lon la lo h1 h2]
          split_ifs with ha hb
          · exact Or.inl ⟨_, rfl, Or.inr (Or.inl rfl)⟩
          · exact Or.inl ⟨_, rfl, Or.inr (Or.inr rfl)⟩
          · exact Or.inr ⟨la, lo, rfl⟩

/-- C3: whenever either coordinate string parses to NaN, validation fails
with the `INVALID_COORDINATES_TYPE` message, whichever side is malformed and
regardless of the other value, before any range check. -/
theorem notANumber_precedence (lat lon : String)
    (h : jsParseFloatString lat = none ∨ jsParseFloatString lon = none) :
    WeatherRoute.areCoordinatesValid lat lon =
      ⟨false, none, none, some WeatherRoute.INVALID_COORDINATES_TYPE⟩ :=
  h.elim (areCoordinatesValid_nan_left lat lon) (areCoordinatesValid_nan_right lat lon)

/-- C3 witness: a malformed latitude and a malformed longitude each produce
the type error. -/
theorem notANumber_precedence_witness :
    WeatherRoute.areCoordinatesValid "abc" "-74.0060" =
      ⟨false, none, none, some WeatherRoute.INVALID_COORDINATES_TYPE⟩ ∧
    WeatherRoute.areCoordinatesValid "40.7128" "xyz" =
      ⟨false, none, none, some WeatherRoute.INVALID_COORDINATES_TYPE⟩ :=
  ⟨notANumber_precedence "abc" "-74.0060" (Or.inl (by decide)),
   notANumber_precedence "40.7128" "xyz" (Or.inr (by decide))⟩

/-- C6: a latitude outside [-90, 90] fails with `INVALID_LATITUDE`
whatever the longitude value is (the latitude range check runs first); with
an in-range latitude, a longitude outside [-180, 180] fails with
`INVALID_LONGITUDE`. -/
theorem latitude_range_checked_before_longitude :
    (∀ (lat lon : String) (la lo : JNum),
       jsParseFloatString lat = some la → jsParseFloatString lon = some lo →
       (la.ltQ (-90) || la.gtQ 90) = true →
       WeatherRoute.areCoordinatesValid lat lon =
         ⟨false, none, none, some WeatherRoute.INVALID_LATITUDE⟩) ∧
    (∀ (lat lon : String) (la lo : JNum),
       jsParseFloatString lat = some la → jsParseFloatString lon = some lo →
       (la.ltQ (-90) || la.gtQ 90) = false →
       (lo.ltQ (-180) || lo.gtQ 180) = true →
       WeatherRoute.areCoordinatesValid lat lon =
         ⟨false, none, none, some WeatherRoute.INVALID_LONGITUDE⟩) := by
  constructor
  · intro lat lon la lo h1 h2 hr
    rw [areCoordinatesValid_some_some lat lon la lo h1 h2, if_pos hr]
  · intro lat lon la lo h1 h2 hr1 hr2
    rw [areCoordinatesValid_some_some lat lon la lo h1 h2, if_neg (by simp [hr1]),
      if_pos hr2]

/-- C6 witness: latitude 100 is rejected as out of range (with an in-range
longitude), and longitude -200 is rejected with an in-range latitude. -/
theorem latitude_range_witness :
    WeatherRoute.areCoordinatesValid "100" "-74.0060" =
      ⟨false, none, none, some WeatherRoute.INVALID_LATITUDE⟩ ∧
    WeatherRoute.areCoordinatesValid "40.7128" "-200" =
      ⟨false, none, none, some WeatherRoute.INVALID_LONGITUDE⟩ := by
  have hA : jsParseFloatString "100" = some (.fin 100) := by
    simp +decide [jsParseFloatString, jsParseFloatChars, parseUnsignedFloat, parseMantissa,
      parseExponent, takeDigits, digitsToNat, digitVal, isDecDigit, jsWhitespace]
  have hB : jsParseFloatString "-74.0060" = some (.fin (-(37003 / 500))) := by
    simp +decide [jsParseFloatString, jsParseFloatChars, parseUnsignedFloat, parseMantissa,
      parseExponent, takeDigits, digitsToNat, digitVal, isDecDigit, jsWhitespace, JNum.neg] <;>
      norm_num
  have hC : jsParseFloatString "40.7128" = some (.fin (50891 / 1250)) := by
    simp +decide [jsParseFloatString, jsParseFloatChars, parseUnsignedFloat, parseMantissa,
      parseExponent, takeDigits, digitsToNat, digitVal, isDecDigit, jsWhitespace] <;>
      norm_num
  have hD : jsParseFloatString "-200" = some (.fin (-200)) := by
    simp +decide [jsParseFloatString, jsParseFloatChars, parseUnsignedFloat, parseMantissa,
      parseExponent, takeDigits, digitsToNat, digitVal, isDecDigit, jsWhitespace, JNum.neg] <;>
      norm_num
  refine ⟨latitude_range_checked_before_longitude.1 "100" "-74.0060" _ _ hA hB ?_,
    latitude_range_checked_before_longitude.2 "40.7128" "-200" _ _ hC hD ?_ ?_⟩
  · simp [JNum.ltQ, JNum.gtQ] <;> norm_num
  · simp [JNum.ltQ, JNum.gtQ] <;> constructor <;> norm_num
  · simp [JNum.ltQ, JNum.gtQ] <;> norm_num

theorem areCoordinatesValid_valid (lat lon : String) (la lo : ℚ)
    (h1 : jsParseFloatString lat = some (.fin la))
    (h2 : jsParseFloatString lon = some (.fin lo))
    (hla1 : -90 ≤ la) (hla2 : la ≤ 90) (hlo1 : -180 ≤ lo) (hlo2 : lo ≤ 180) :
    WeatherRoute.areCoordinatesValid lat lon =
      ⟨true, some (.fin la), some (.fin lo), none⟩ := by
  rw [areCoordinatesValid_some_some lat lon (.fin la) (.fin lo) h1 h2,
    if_neg (by simp [JNum.ltQ, JNum.gtQ]; constructor <;> linarith),
    if_neg (by simp [JNum.ltQ, JNum.gtQ]; constructor <;> linarith)]

theorem handler_missing_params (lat lon : Option String)
    (fetch : JNum → JNum → Except String WeatherServiceData)
    (h : (!WeatherRoute.jsTruthyOptStr lat || !WeatherRoute.jsTruthyOptStr lon) = true) :
    WeatherRoute.getWeatherByCoordinates lat lon fetch =
      (⟨400, .errObj (some WeatherRoute.MISSING_COORDINATES)⟩,
       [.httpLog lat lon]) := by
  simp only [WeatherRoute.getWeatherByCoordinates]
  rw [if_pos h]

theorem handler_validation_failure (lat lon : String) (msg : String)
    (fetch : JNum → JNum → Except String WeatherServiceData)
    (hlat : lat ≠ "") (hlon : lon ≠ "")
    (h : WeatherRoute.areCoordinatesValid lat lon = ⟨false, none, none, some msg⟩) :
    WeatherRoute.getWeatherByCoordinates (some lat) (some lon) fetch =
      (⟨400, .errObj (some msg)⟩,
       [.httpLog (some lat) (some lon), .validationErrorLog msg]) := by
  simp only [WeatherRoute.getWeatherByCoordinates, WeatherRoute.jsTruthyOptStr]
  rw [if_neg (by simp [hlat, hlon])]
  simp only [Option.getD_some, h]
  rfl

theorem handler_fetch_error (lat lon : String) (la lo : JNum) (cause : String)
    (fetch : JNum → JNum → Except String WeatherServiceData)
    (hlat : lat ≠ "") (hlon : lon ≠ "")
    (hv : WeatherRoute.areCoordinatesValid lat lon = ⟨true, some la, some lo, none⟩)
    (hf : fetch la lo = .error cause) :
    WeatherRoute.getWeatherByCoordinates (some lat) (some lon) fetch =
      (⟨500, .errObj (some WeatherRoute.FETCH_FAILED)⟩,
       [.httpLog (some lat) (some lon),
        .fetchErrorLog WeatherRoute.FETCH_FAILED cause (some la) (some lo)]) := by
  simp only [WeatherRoute.getWeatherByCoordinates, WeatherRoute.jsTruthyOptStr]
  rw [if_neg (by simp [hlat, hlon])]
  simp only [Option.getD_some, hv, hf]
  rfl

theorem handler_fetch_success (lat lon : String) (la lo : JNum) (w : WeatherServiceData)
    (fetch : JNum → JNum → Except String WeatherServiceData)
    (hlat : lat ≠ "") (hlon : lon ≠ "")
    (hv : WeatherRoute.areCoordinatesValid lat lon = ⟨true, some la, some lo, none⟩)
    (hf : fetch la lo = .ok w) :
    WeatherRoute.getWeatherByCoordinates (some lat) (some lon) fetch =
      (⟨200, .weather w⟩, [.httpLog (some lat) (some lon)]) := by
  simp only [WeatherRoute.getWeatherByCoordinates, WeatherRoute.jsTruthyOptStr]
  rw [if_neg (by simp [hlat, hlon])]
  simp only [Option.getD_some, hv, hf]
  rfl

/-- C7: a rejected provider call propagates its cause out of the service; a
mapper TypeError is also rethrown; and on any fetch error the handler
responds 500 with the fixed "Failed to fetch weather data" body (the cause
never reaches the body) while logging the cause with both coordinates. -/
theorem fetch_failure_responds_500 :
    (∀ cause : String,
      OpenWeatherService.getWeatherByCoordinates (.error cause) = .error cause) ∧
    (∀ data : JVal, OpenWeatherMapper.mapToWeatherServiceData data = none →
      OpenWeatherService.getWeatherByCoordinates (.ok data) = .error "TypeError") ∧
    (∀ (lat lon : String) (la lo : JNum) (cause : String)
       (fetch : JNum → JNum → Except String WeatherServiceData),
      lat ≠ "" → lon ≠ "" →
      WeatherRoute.areCoordinatesValid lat lon = ⟨true, some la, some lo, none⟩ →
      fetch la lo = .error cause →
      WeatherRoute.getWeatherByCoordinates (some lat) (some lon) fetch =
        (⟨500, .errObj (some WeatherRoute.FETCH_FAILED)⟩,
         [.httpLog (some lat) (some lon),
          .fetchErrorLog WeatherRoute.FETCH_FAILED cause (some la) (some lo)])) := by
  refine ⟨fun cause => rfl, fun data h => ?_, handler_fetch_error⟩
  simp [OpenWeatherService.getWeatherByCoordinates, h]

/-- C7 witness: with valid coordinates and a provider call that rejects with
"network down", the endpoint answers 500 with the generic message and logs
the cause with the coordinates. -/
theorem fetch_failure_witness :
    WeatherRoute.getWeatherByCoordinates (some "40.7128") (some "-74.0060")
        (fun _ _ => OpenWeatherService.getWeatherByCoordinates (.error "network down")) =
      (⟨500, .errObj (some WeatherRoute.FETCH_FAILED)⟩,
       [.httpLog (some "40.7128") (some "-74.0060"),
        .fetchErrorLog WeatherRoute.FETCH_FAILED "network down"
          (some (.fin (50891 / 1250))) (some (.fin (-(37003 / 500))))]) := by
  have hC : jsParseFloatString "40.7128" = some (.fin (50891 / 1250)) := by
    simp +decide [jsParseFloatString, jsParseFloatChars, parseUnsignedFloat, parseMantissa,
      parseExponent, takeDigits, digitsToNat, digitVal, isDecDigit, jsWhitespace] <;>
      norm_num
  have hB : jsParseFloatString "-74.0060" = some (.fin (-(37003 / 500))) := by
    simp +decide [jsParseFloatString, jsParseFloatChars, parseUnsignedFloat, parseMantissa,
      parseExponent, takeDigits, digitsToNat, digitVal, isDecDigit, jsWhitespace, JNum.neg] <;>
      norm_num
  exact fetch_failure_responds_500.2.2 "40.7128" "-74.0060" _ _ "network down" _
    (by decide) (by decide)
    (areCoordinatesValid_valid "40.7128" "-74.0060" _ _ hC hB
      (by norm_num) (by norm_num) (by norm_num) (by norm_num))
    (fetch_failure_responds_500.1 "network down")

/-- C9: coordinate validation inherits `parseFloat` prefix semantics: a
string whose longest numeric prefix is an in-range number is accepted with
that parsed value even when non-numeric characters trail it; in particular
lat="40.7abc" is accepted as latitude 40.7. -/
theorem parseFloat_prefix_semantics :
    (jsParseFloatString "40.7abc" = some (.fin (407 / 10))) ∧
    (∀ (lat lon : String) (la lo : ℚ),
      jsParseFloatString lat = some (.fin la) → jsParseFloatString lon = some (.fin lo) →
      -90 ≤ la → la ≤ 90 → -180 ≤ lo → lo ≤ 180 →
      WeatherRoute.areCoordinatesValid lat lon =
        ⟨true, some (.fin la), some (.fin lo), none⟩) ∧
    (WeatherRoute.areCoordinatesValid "40.7abc" "-74.0060" =
      ⟨true, some (.fin (407 / 10)), some (.fin (-(37003 / 500))), none⟩) := by
  have hA : jsParseFloatString "40.7abc" = some (.fin (407 / 10)) := by
    simp +decide [jsParseFloatString, jsParseFloatChars, parseUnsignedFloat, parseMantissa,
      parseExponent, takeDigits, digitsToNat, digitVal, isDecDigit, jsWhitespace] <;>
      norm_num
  have hB : jsParseFloatString "-74.0060" = some (.fin (-(37003 / 500))) := by
    simp +decide [jsParseFloatString, jsParseFloatChars, parseUnsignedFloat, parseMantissa,
      parseExponent, takeDigits, digitsToNat, digitVal, isDecDigit, jsWhitespace, JNum.neg] <;>
      norm_num
  exact ⟨hA, areCoordinatesValid_valid,
    areCoordinatesValid_valid "40.7abc" "-74.0060" _ _ hA hB
      (by norm_num) (by norm_num) (by norm_num) (by norm_num)⟩

/-- C9 witness: the fully numeric pair is accepted with the parsed
values. -/
theorem parseFloat_prefix_witness :
    WeatherRoute.areCoordinatesValid "40.7128" "-74.0060" =
      ⟨true, some (.fin (50891 / 1250)), some (.fin (-(37003 / 500))), none⟩ := by
  have hC : jsParseFloatString "40.7128" = some (.fin (50891 / 1250)) := by
    simp +decide [jsParseFloatString, jsParseFloatChars, parseUnsignedFloat, parseMantissa,
      parseExponent, takeDigits, digitsToNat, digitVal, isDecDigit, jsWhitespace] <;>
      norm_num
  have hB : jsParseFloatString "-74.0060" = some (.fin (-(37003 / 500))) := by
    simp +decide [jsParseFloatString, jsParseFloatChars, parseUnsignedFloat, parseMantissa,
      parseExponent, takeDigits, digitsToNat, digitVal, isDecDigit, jsWhitespace, JNum.neg] <;>
      norm_num
  exact parseFloat_prefix_semantics.2.1 "40.7128" "-74.0060" _ _ hC hB
    (by norm_num) (by norm_num) (by norm_num) (by norm_num)

/-- C10: a successful validation always carries parsed latitude and
longitude values, so the handler's post-validation 400 branch with the
"Invalid coordinates provided" body can never run: no reply of the
endpoint ever has that body. -/
theorem invalid_coordinates_branch_unreachable :
    (∀ lat lon : String, (WeatherRoute.areCoordinatesValid lat lon).areValid = true →
      (WeatherRoute.areCoordinatesValid lat lon).latitude.isSome = true ∧
      (WeatherRoute.areCoordinatesValid lat lon).longitude.isSome = true) ∧
    (∀ (lat lon : Option String) (fetch : JNum → JNum → Except String WeatherServiceData),
      (WeatherRoute.getWeatherByCoordinates lat lon fetch).1.body ≠
        WeatherRoute.ReplyBody.errObj (some WeatherRoute.INVALID_COORDINATES)) := by
  constructor
  · intro lat lon hv
    rcases areCoordinatesValid_cases lat lon with ⟨msg, he, _⟩ | ⟨la, lo, he⟩
    · rw [he] at hv; simp at hv
    · rw [he]; exact ⟨rfl, rfl⟩
  · intro lat lon fetch
    by_cases hm : (!WeatherRoute.jsTruthyOptStr lat || !WeatherRoute.jsTruthyOptStr lon) = true
    · rw [handler_missing_params lat lon fetch hm]
      simp [WeatherRoute.MISSING_COORDINATES, WeatherRoute.INVALID_COORDINATES]
    · have hlat : WeatherRoute.jsTruthyOptStr lat = true := by
        revert hm; cases WeatherRoute.jsTruthyOptStr lat <;> simp
      have hlon : WeatherRoute.jsTruthyOptStr lon = true := by
        revert hm; cases WeatherRoute.jsTruthyOptStr lon <;> simp
      cases lat with
      | none => simp [WeatherRoute.jsTruthyOptStr] at hlat
      | some s =>
      cases lon with
      | none => simp [WeatherRoute.jsTruthyOptStr] at hlon
      | some t =>
      have hs : s ≠ "" := by simpa [WeatherRoute.jsTruthyOptStr] using hlat
      have ht : t ≠ "" := by simpa [WeatherRoute.jsTruthyOptStr] using hlon
      rcases areCoordinatesValid_cases s t with ⟨msg, he, hmsg⟩ | ⟨la, lo, he⟩
      · rw [handler_validation_failure s t msg fetch hs ht he]
        rcases hmsg with rfl | rfl | rfl <;>
          simp [WeatherRoute.INVALID_COORDINATES_TYPE, WeatherRoute.INVALID_LATITUDE,
            WeatherRoute.INVALID_LONGITUDE, WeatherRoute.INVALID_COORDINATES]
      · cases hf : fetch la lo with
        | ok w => rw [handler_fetch_success s t la lo w fetch hs ht he hf]; simp
        | error c =>
            rw [handler_fetch_error s t la lo c fetch hs ht he hf]
            simp [WeatherRoute.FETCH_FAILED, WeatherRoute.INVALID_COORDINATES]

/-- C10 witness: a concrete valid pair yields defined parsed coordinates. -/
theorem invalid_coordinates_witness :
    (WeatherRoute.areCoordinatesValid "40.7128" "-74.0060").latitude.isSome = true ∧
    (WeatherRoute.areCoordinatesValid "40.7128" "-74.0060").longitude.isSome = true := by
  apply invalid_coordinates_branch_unreachable.1 "40.7128" "-74.0060"
  have hC : jsParseFloatString "40.7128" = some (.fin (50891 / 1250)) := by
    simp +decide [jsParseFloatString, jsParseFloatChars, parseUnsignedFloat, parseMantissa,
      parseExponent, takeDigits, digitsToNat, digitVal, isDecDigit, jsWhitespace] <;>
      norm_num
  have hB : jsParseFloatString "-74.0060" = some (.fin (-(37003 / 500))) := by
    simp +decide [jsParseFloatString, jsParseFloatChars, parseUnsignedFloat, parseMantissa,
      parseExponent, takeDigits, digitsToNat, digitVal, isDecDigit, jsWhitespace, JNum.neg] <;>
      norm_num
  rw [areCoordinatesValid_valid "40.7128" "-74.0060" _ _ hC hB
    (by norm_num) (by norm_num) (by norm_num) (by norm_num)]

/-- C8: the API-key gate passes every request through in development mode;
otherwise it answers 401 when neither the header nor the query parameter
presents a non-empty key, 403 when the presented key differs from the
configured secret, and passes the request through when they agree. -/
theorem apiKeyGate_behavior :
    (∀ headerKey queryKey secret : Option String,
      apiKeyValidator (some "development") headerKey queryKey secret = .proceed) ∧
    (∀ (env headerKey queryKey secret : Option String),
      env ≠ some "development" → (jsOrStr headerKey queryKey).getD "" = "" →
      apiKeyValidator env headerKey queryKey secret = .reply 401 "Unauthorized") ∧
    (∀ (env headerKey queryKey secret : Option String) (k : String),
      env ≠ some "development" → jsOrStr headerKey queryKey = some k → k ≠ "" →
      some k ≠ secret →
      apiKeyValidator env headerKey queryKey secret = .reply 403 "Forbidden") ∧
    (∀ (env headerKey queryKey : Option String) (k : String),
      env ≠ some "development" → jsOrStr headerKey queryKey = some k → k ≠ "" →
      apiKeyValidator env headerKey queryKey (some k) = .proceed) := by
  refine ⟨fun headerKey queryKey secret => by simp [apiKeyValidator],
    fun env headerKey queryKey secret henv hempty => ?_,
    fun env headerKey queryKey secret k henv hk hke hne => ?_,
    fun env headerKey queryKey k henv hk hke => ?_⟩
  · simp only [apiKeyValidator]
    rw [if_neg henv, if_pos hempty]
  · simp only [apiKeyValidator]
    rw [if_neg henv, hk]
    rw [if_neg (by simpa using hke), if_pos hne]
  · simp only [apiKeyValidator]
    rw [if_neg henv, hk]
    rw [if_neg (by simpa using hke), if_neg (by simp)]

/-- C8 witness: the four gate behaviors at concrete keys. -/
theorem apiKeyGate_witness :
    apiKeyValidator (some "development") none none (some "secret") = .proceed ∧
    apiKeyValidator (some "production") none none (some "secret") = .reply 401 "Unauthorized" ∧
    apiKeyValidator (some "production") (some "bad") none (some "secret") = .reply 403 "Forbidden" ∧
    apiKeyValidator (some "production") (some "secret") none (some "secret") = .proceed :=
  ⟨apiKeyGate_behavior.1 none none (some "secret"),
   apiKeyGate_behavior.2.1 (some "production") none none (some "secret") (by decide) rfl,
   apiKeyGate_behavior.2.2.1 (some "production") (some "bad") none (some "secret") "bad"
     (by decide) rfl (by decide) (by decide),
   apiKeyGate_behavior.2.2.2 (some "production") (some "secret") none "secret"
     (by decide) rfl (by decide)⟩
